import Mathlib

/-!
# Verification of the MonetDBe-Python low-level binding (`monetdbe/_cffi/internal.py`)

This file shallowly embeds the session coordinator, column materializer,
append validator and result-cleanup code of `monetdbe/_cffi/internal.py`.
The opaque embedded engine (`monetdbe._lowlevel.lib`) is modelled as a
record of deterministic response functions (`Engine`); every call the
binding makes into the engine is additionally recorded in an explicit
trace, so ordering properties ("the handle is closed before the exception
propagates", "the bulk-append call is never issued") become statements
about the trace.

Stateful Python code (the class-level attributes `_active_context`,
`in_memory_active`, `_connection` of `Internal`) becomes explicit state
passing on `GState`; fallible code returns `Except Err`.

The helper modules `monetdbe._cffi.convert` and `monetdbe._cffi.errors`
are imported by `internal.py` but their sources are not part of the
repository snapshot; the definitions for them below are modelled from the
specification and are marked `Modelled from the spec:` in their doc
comments.
-/

namespace MonetDBe

/-! ## Python-level values

A small closed universe of the Python values the binding moves around:
integers (covering every fixed-width integer buffer element), strings,
`None`, the dedicated non-`None` null-sentinel object the spec gives to
string/date/timestamp columns, and the IEEE NaN pattern used as the
float null sentinel. -/

inductive Val where
  | vInt (i : Int)
  | vStr (s : String)
  | vNone
  | vSentinel
  | vNaN
deriving DecidableEq, Repr

/-- Python truthiness of a value (`if monetdbe_null:`). `None` and `0`
are falsy; any other value here is truthy. -/
def Val.truthy : Val → Bool
  | .vInt i => i != 0
  | .vStr s => !s.isEmpty
  | .vNone => false
  | .vSentinel => true
  | .vNaN => true

/-- numpy element-wise equality: IEEE NaN compares unequal to
everything, itself included; otherwise structural equality. -/
def np_eq : Val → Val → Bool
  | .vNaN, _ => false
  | _, .vNaN => false
  | a, b => a == b

/-- Python `str()` of a value. -/
def pyStr : Val → String
  | .vInt i => toString i
  | .vStr s => s
  | .vNone => "None"
  | .vSentinel => "<null sentinel>"
  | .vNaN => "nan"

/-! ## Engine type tags (`lib.monetdbe_*` constants) -/

def monetdbe_bool : Int := 0
def monetdbe_int8_t : Int := 1
def monetdbe_int16_t : Int := 2
def monetdbe_int32_t : Int := 3
def monetdbe_int64_t : Int := 4
def monetdbe_float : Int := 5
def monetdbe_double : Int := 6
def monetdbe_str : Int := 7
def monetdbe_date : Int := 8
def monetdbe_time : Int := 9
def monetdbe_timestamp : Int := 10

/-- numpy dtypes the binding uses. -/
inductive NPDtype where
  | np_bool
  | np_int8
  | np_int16
  | np_int32
  | np_int64
  | np_float32
  | np_float64
  | np_object
deriving DecidableEq, Repr

/-- Modelled from the spec: `monet_numpy_map` of `monetdbe._cffi.convert`
(not under `src/`): for an engine type tag, the engine type string, the
numpy dtype, and the per-type null sentinel.  Fixed-width integer types
carry the minimum representable integer as sentinel; floats carry the
NaN pattern; strings/dates/timestamps carry a dedicated sentinel object;
booleans and time-of-day define no sentinel.  Unknown tags are absent
(`none`), matching a `KeyError` on the Python dict. -/
def monet_numpy_map (t : Int) : Option (String × NPDtype × Option Val) :=
  if t = monetdbe_bool then some ("bool", NPDtype.np_bool, none)
  else if t = monetdbe_int8_t then some ("int8_t", NPDtype.np_int8, some (Val.vInt (-(2 ^ 7))))
  else if t = monetdbe_int16_t then some ("int16_t", NPDtype.np_int16, some (Val.vInt (-(2 ^ 15))))
  else if t = monetdbe_int32_t then some ("int32_t", NPDtype.np_int32, some (Val.vInt (-(2 ^ 31))))
  else if t = monetdbe_int64_t then some ("int64_t", NPDtype.np_int64, some (Val.vInt (-(2 ^ 63))))
  else if t = monetdbe_float then some ("float", NPDtype.np_float32, some Val.vNaN)
  else if t = monetdbe_double then some ("double", NPDtype.np_float64, some Val.vNaN)
  else if t = monetdbe_str then some ("str", NPDtype.np_object, some Val.vSentinel)
  else if t = monetdbe_date then some ("date", NPDtype.np_object, some Val.vSentinel)
  else if t = monetdbe_time then some ("time", NPDtype.np_object, none)
  else if t = monetdbe_timestamp then some ("timestamp", NPDtype.np_object, some Val.vSentinel)
  else none

/-- Modelled from the spec: `numpy_monetdb_map` of
`monetdbe._cffi.convert` (not under `src/`): for a numpy array dtype,
the engine type string and engine type tag; `none` (an
`UnsupportedTypeError` in Python) for a dtype with no engine
equivalent. -/
def numpy_monetdb_map : NPDtype → Option (String × Int)
  | .np_bool => some ("bool", monetdbe_bool)
  | .np_int8 => some ("int8_t", monetdbe_int8_t)
  | .np_int16 => some ("int16_t", monetdbe_int16_t)
  | .np_int32 => some ("int32_t", monetdbe_int32_t)
  | .np_int64 => some ("int64_t", monetdbe_int64_t)
  | .np_float32 => some ("float", monetdbe_float)
  | .np_float64 => some ("double", monetdbe_double)
  | .np_object => none

/-! ## Errors raised by the binding -/

inductive Err where
  | operationalError (msg : String)
  | programmingError (msg : String)
  | valueError (msg : String)
  | keyError (msg : String)
  | unsupportedTypeError (msg : String)
deriving DecidableEq, Repr

/-- Modelled from the spec: `check_error` (`monetdbe._cffi.errors`,
not under `src/`) turns a non-zero engine status into an
`OperationalError` carrying the engine's error information. -/
def engine_error_message (rc : Int) : String := s!"engine error (code {rc})"

/-- The message `Internal.open` raises on a non-zero open code
(internal.py line 174). -/
def open_error_message (error : String) (rc : Int) : String :=
  s!"Failed to open database: {error} (code {rc})"

/-! ## Column materialization (`result_fetch_numpy`)

One engine result column: its name, type tag, the raw fixed-width buffer
viewed element-wise (`ffi.buffer`/`np.frombuffer`), and the per-row
extraction function used on the object path (`convert.extract`, modelled
from the spec). -/

structure ResultCol where
  name : String
  type : Int
  raw : Nat → Val
  extract : Nat → Val

/-- A numpy masked array: the data values and an optional boolean mask
(`none` models `np.ma.nomask`). -/
structure MaskedArray where
  values : List Val
  mask : Option (List Bool)
deriving DecidableEq, Repr

def time_warning : String :=
  "Not converting column with type column since no proper numpy equivalent"

/-- The per-column body of `result_fetch_numpy` (internal.py lines
28-53): look the type tag up in the type map; on the object path extract
each row individually and post-convert by type (`astype(str)` for
strings, representation-only `astype` for date/timestamp — modelled as
the identity on the value domain — and a warning with no conversion for
time-of-day); on the fixed-width path view the raw buffer directly as
`nrows` elements.  Then compare against the null sentinel (under Python
truthiness of the sentinel and numpy element equality) to build the
mask.  Returns the masked array together with the warnings emitted. -/
def fetch_numpy_column (nrows : Nat) (rcol : ResultCol) :
    Except Err (MaskedArray × List String) :=
  match monet_numpy_map rcol.type with
  | none =>
    let t := rcol.type
    .error (.keyError s!"{t}")
  | some (_cast_string, numpy_type, monetdbe_null) =>
    let pair : List Val × List String :=
      if numpy_type = NPDtype.np_object then
        let base := List.ofFn (fun r : Fin nrows => rcol.extract r)
        if rcol.type = monetdbe_str then (base.map (fun v => Val.vStr (pyStr v)), [])
        else if rcol.type = monetdbe_date then (base, [])
        else if rcol.type = monetdbe_time then (base, [time_warning])
        else if rcol.type = monetdbe_timestamp then (base, [])
        else (base, [])
      else
        (List.ofFn (fun r : Fin nrows => rcol.raw r), [])
    let np_col := pair.1
    let mask : Option (List Bool) :=
      match monetdbe_null with
      | some nullv =>
        if nullv.truthy then some (np_col.map (fun v => np_eq v nullv)) else none
      | none => none
    .ok (⟨np_col, mask⟩, pair.2)

/-! ## The session coordinator (`class Internal`)

Class-level mutable state, the engine collaborator, and the call trace. -/

/-- `monetdbe_options` as filled in by `Internal.open` (internal.py
lines 153-157). -/
structure Options where
  memorylimit : Int
  querytimeout : Int
  sessiontimeout : Int
  nr_threads : Int
deriving DecidableEq, Repr

/-- The class-level attributes of `Internal`: `_active_context`
(identity of the process-wide active session, if any),
`in_memory_active`, and `_connection` (the single native handle; `none`
models Python `None` / cffi NULL). -/
structure GState where
  active_context : Option Nat
  in_memory_active : Bool
  connection : Option Nat
deriving DecidableEq, Repr

/-- The per-object configuration of one `Internal` session.  `sid` is
the Python object identity used by the `self._active_context == self`
comparison. -/
structure SessionCfg where
  sid : Nat
  dbdir : Option String
  memorylimit : Int
  querytimeout : Int
  sessiontimeout : Int
  nr_threads : Int
deriving DecidableEq, Repr

/-- One call issued into the native engine.  `Option Nat` handles model
that Python passes whatever `self._connection` currently is, NULL
included. -/
inductive ECall where
  | eOpen (url : Option String) (opts : Options)
  | eClose (h : Nat)
  | eQuery (h : Option Nat) (sql : String) (wantResult : Bool)
  | eCleanupResult (h : Option Nat) (r : Nat)
  | ePrepare (h : Option Nat) (sql : String)
  | eBind (stmt : Nat) (payload : List UInt8) (n : Nat)
  | eSetAutocommit (h : Option Nat) (v : Int)
  | eInTransaction (h : Option Nat)
  | eAppend (h : Option Nat) (schema : String) (table : String)
      (cols : List (String × Int × Nat))
  | eGetColumns (h : Option Nat) (schema : String) (table : String)
deriving DecidableEq, Repr

/-- Does the call release a native connection handle? -/
def ECall.isClose : ECall → Bool
  | .eClose _ => true
  | _ => false

/-- Is the call the engine bulk-append entry point? -/
def ECall.isAppend : ECall → Bool
  | .eAppend _ _ _ _ => true
  | _ => false

/-- The opaque embedded engine, as a record of deterministic response
functions: for each native entry point the status code it returns and
(where applicable) the payload it produces.  `resolve` models
`Path.resolve().absolute()`. -/
structure Engine where
  resolve : String → String
  open_rc : Option String → Options → Int
  open_handle : Option String → Options → Nat
  error_str : Nat → String
  close_rc : Nat → Int
  query_rc : Option Nat → String → Int
  query_result : Option Nat → String → Nat
  query_rows : Option Nat → String → Int
  cleanup_result_rc : Option Nat → Nat → Int
  prepare_rc : Option Nat → String → Int
  prepare_stmt : Option Nat → String → Nat
  bind_rc : Nat → String → Nat → Int
  set_autocommit_rc : Option Nat → Int → Int
  in_transaction_val : Option Nat → Int
  append_rc : Option Nat → String → String → Int
  get_columns_val : Option Nat → String → String → List (String × Int)
  get_columns_rc : Option Nat → String → String → Int

/-- The running state of an operation: the class-level state plus the
trace of engine calls issued so far. -/
structure St where
  g : GState
  trace : List ECall
deriving DecidableEq, Repr

/-- Operations are state transformers that may raise. -/
def M (α : Type) : Type := St → St × Except Err α

/-- The URL handed to `monetdbe_open` (internal.py lines 146-149). -/
def session_url (E : Engine) (sess : SessionCfg) : Option String :=
  sess.dbdir.map E.resolve

/-- The options record handed to `monetdbe_open` (lines 153-157). -/
def session_opts (sess : SessionCfg) : Options :=
  ⟨sess.memorylimit, sess.querytimeout, sess.sessiontimeout, sess.nr_threads⟩

namespace Internal

/-- `Internal.open` (internal.py lines 144-176): build url and options,
call `monetdbe_open`, and on a non-zero code raise `OperationalError` —
fetching the engine's own error string and closing the partially created
connection first when the code is `-2` ("Error in DB"), and using the
static code-to-text table (`-1` → "Allocation failed", anything else →
"unknown error") otherwise.  On success return the connection handle. -/
def open_db (E : Engine) (sess : SessionCfg) : M Nat := fun s =>
  let url := session_url E sess
  let opts := session_opts sess
  let connection := E.open_handle url opts
  let rc := E.open_rc url opts
  let s1 : St := { s with trace := s.trace ++ [ECall.eOpen url opts] }
  if rc = 0 then (s1, .ok connection)
  else if rc = -2 then
    let error := E.error_str connection
    ({ s1 with trace := s1.trace ++ [ECall.eClose connection] },
      .error (.operationalError s!"Failed to open database: {error} (code {rc})"))
  else
    let error := if rc = -1 then "Allocation failed" else "unknown error"
    (s1, .error (.operationalError s!"Failed to open database: {error} (code {rc})"))

/-- `Internal.close` (internal.py lines 178-188): if a connection is
held, call `monetdbe_close` and raise `OperationalError` on a non-zero
code (aborting the rest of the method), else clear the connection; then
clear the active-context marker if set; finally, if this session has no
storage directory, set the process-wide `in_memory_active` flag. -/
def close (E : Engine) (sess : SessionCfg) : M Unit := fun s =>
  let step2 : St → St × Except Err Unit := fun t =>
    let t1 : St :=
      if t.g.active_context ≠ none then
        { t with g := { t.g with active_context := none } }
      else t
    let t2 : St :=
      if sess.dbdir = none then
        { t1 with g := { t1.g with in_memory_active := true } }
      else t1
    (t2, .ok ())
  match s.g.connection with
  | some h =>
    let s1 : St := { s with trace := s.trace ++ [ECall.eClose h] }
    if E.close_rc h ≠ 0 then
      (s1, .error (.operationalError "Failed to close database"))
    else
      step2 { s1 with g := { s1.g with connection := none } }
  | none => step2 s

/-- `Internal._switch` (internal.py lines 123-137): a no-op when this
session is already the process-wide active context; otherwise close the
current state, open this session, store the new connection, mark this
session active, and set the in-memory flag when it has no storage
directory. -/
def _switch (E : Engine) (sess : SessionCfg) : M Unit := fun s =>
  if s.g.active_context = some sess.sid then (s, .ok ())
  else
    match close E sess s with
    | (s1, .error e) => (s1, .error e)
    | (s1, .ok ()) =>
      match open_db E sess s1 with
      | (s2, .error e) => (s2, .error e)
      | (s2, .ok conn) =>
        let s3 : St := { s2 with g := { s2.g with connection := some conn } }
        let s4 : St := { s3 with g := { s3.g with active_context := some sess.sid } }
        if sess.dbdir = none then
          ({ s4 with g := { s4.g with in_memory_active := true } }, .ok ())
        else (s4, .ok ())

/-- `Internal.cleanup_result` (internal.py lines 139-142): only when the
result pointer is non-null (`0` models cffi NULL) and a connection is
held, call `monetdbe_cleanup_result` and check its status. -/
def cleanup_result (E : Engine) (result : Nat) : M Unit := fun s =>
  if result ≠ 0 ∧ s.g.connection ≠ none then
    let rc := E.cleanup_result_rc s.g.connection result
    let s1 : St := { s with trace := s.trace ++ [ECall.eCleanupResult s.g.connection result] }
    if rc = 0 then (s1, .ok ())
    else (s1, .error (.operationalError (engine_error_message rc)))
  else (s, .ok ())

/-- `Internal.query` (internal.py lines 190-217): switch, issue
`monetdbe_query` on the current connection, check the status, and
return the optional result pointer and the affected-row count. -/
def query (E : Engine) (sess : SessionCfg) (q : String) (make_result : Bool) :
    M (Option Nat × Int) := fun s =>
  match _switch E sess s with
  | (s1, .error e) => (s1, .error e)
  | (s1, .ok ()) =>
    let conn := s1.g.connection
    let rc := E.query_rc conn q
    let s2 : St := { s1 with trace := s1.trace ++ [ECall.eQuery conn q make_result] }
    if rc = 0 then
      (s2, .ok ((if make_result then some (E.query_result conn q) else none),
                E.query_rows conn q))
    else (s2, .error (.operationalError (engine_error_message rc)))

/-- `Internal.set_autocommit` (internal.py lines 219-221). -/
def set_autocommit (E : Engine) (sess : SessionCfg) (value : Bool) : M Unit := fun s =>
  match _switch E sess s with
  | (s1, .error e) => (s1, .error e)
  | (s1, .ok ()) =>
    let conn := s1.g.connection
    let v : Int := if value then 1 else 0
    let rc := E.set_autocommit_rc conn v
    let s2 : St := { s1 with trace := s1.trace ++ [ECall.eSetAutocommit conn v] }
    if rc = 0 then (s2, .ok ())
    else (s2, .error (.operationalError (engine_error_message rc)))

/-- `Internal.in_transaction` (internal.py lines 223-225): the engine
status is converted with `bool(...)`, not error-checked. -/
def in_transaction (E : Engine) (sess : SessionCfg) : M Bool := fun s =>
  match _switch E sess s with
  | (s1, .error e) => (s1, .error e)
  | (s1, .ok ()) =>
    let conn := s1.g.connection
    ({ s1 with trace := s1.trace ++ [ECall.eInTransaction conn] },
      .ok (E.in_transaction_val conn != 0))

/-- `Internal.prepare` (internal.py lines 259-263). -/
def prepare (E : Engine) (sess : SessionCfg) (q : String) : M Nat := fun s =>
  match _switch E sess s with
  | (s1, .error e) => (s1, .error e)
  | (s1, .ok ()) =>
    let conn := s1.g.connection
    let rc := E.prepare_rc conn q
    let s2 : St := { s1 with trace := s1.trace ++ [ECall.ePrepare conn q] }
    if rc = 0 then (s2, .ok (E.prepare_stmt conn q))
    else (s2, .error (.operationalError (engine_error_message rc)))

/-- `Internal.get_columns` (internal.py lines 277-288): switch, call
`monetdbe_get_columns`, and yield the (name, type tag) pairs.  The
status returned by `monetdbe_get_columns` is NOT checked by the code
(there is no `check_error` around the call), which is why
`E.get_columns_rc` is never consulted here. -/
def get_columns (E : Engine) (sess : SessionCfg) (table : String)
    (schema : String := "sys") : M (List (String × Int)) := fun s =>
  match _switch E sess s with
  | (s1, .error e) => (s1, .error e)
  | (s1, .ok ()) =>
    let conn := s1.g.connection
    ({ s1 with trace := s1.trace ++ [ECall.eGetColumns conn schema table] },
      .ok (E.get_columns_val conn schema table))

end Internal

/-! ## Bulk append (`Internal.append`) -/

/-- A numpy array as `append` sees it: its dtype and its row count
(`shape[0]`).  The buffer contents are passed to the engine by
reference (`ffi.from_buffer`) and never inspected by the binding. -/
structure NPArray where
  dtype : NPDtype
  length : Nat
deriving DecidableEq, Repr

/-- Python set equality of two name collections
(`set(a) == set(b)`). -/
def sameSet (a b : List String) : Bool :=
  a.all (fun x => b.contains x) && b.all (fun x => a.contains x)

/-- The `ProgrammingError` message for a column-name mismatch
(internal.py lines 236-237), listing the provided and the existing
names. -/
def append_name_error (provided existing : List String) : String :=
  let p := String.intercalate ", " provided
  let e := String.intercalate ", " existing
  s!"Appended column names ({p}) don\x27t match existing column names ({e})"

/-- The `ProgrammingError` message for a column-type mismatch
(internal.py lines 248-249), naming the provided and the existing
engine type strings. -/
def append_type_error (work_type_string column_name existing_type_string : String) : String :=
  s!"Type \x27{work_type_string}\x27 for appended column \x27{column_name}\x27 does not match table type \x27{existing_type_string}\x27"

/-- Does one existing column pass the per-column checks of the append
loop for the given data mapping? -/
def col_ok (data : List (String × NPArray)) (c : String × Int) : Bool :=
  match List.lookup c.1 data with
  | none => false
  | some arr =>
    match numpy_monetdb_map arr.dtype with
    | none => false
    | some (_, wt) => wt == c.2

/-- The per-column loop of `Internal.append` (internal.py lines
242-256), walked in the engine's declared column order: look the
provided array up by name, map its dtype to an engine type, raise
`ProgrammingError` (naming both type strings) on a mismatch, and
otherwise accumulate the work-column descriptor
(name, type tag, row count). -/
def check_columns (data : List (String × NPArray)) :
    List (String × Int) → Except Err (List (String × Int × Nat))
  | [] => .ok []
  | (column_name, existing_type) :: rest =>
    match List.lookup column_name data with
    | none => .error (.keyError column_name)
    | some column_values =>
      match numpy_monetdb_map column_values.dtype with
      | none =>
        let ds := reprStr column_values.dtype
        .error (.unsupportedTypeError s!"could not convert {ds}")
      | some (work_type_string, work_type) =>
        if work_type ≠ existing_type then
          match monet_numpy_map existing_type with
          | none =>
            let ty := existing_type
            .error (.keyError s!"{ty}")
          | some (existing_type_string, _, _) =>
            .error (.programmingError
              (append_type_error work_type_string column_name existing_type_string))
        else
          match check_columns data rest with
          | .error e => .error e
          | .ok ds => .ok ((column_name, existing_type, column_values.length) :: ds)

namespace Internal

/-- `Internal.append` (internal.py lines 227-257): switch, fetch the
table's existing columns via `get_columns` (which re-enters `_switch`),
unpack them (`zip(*existing_columns)` raises `ValueError` when the
engine reports no columns), compare the provided and existing name sets
(raising `ProgrammingError` listing both on mismatch), run the
per-column type checks in declared order, and only then issue the
engine bulk-append call and check its status. -/
def append (E : Engine) (sess : SessionCfg) (table : String)
    (data : List (String × NPArray)) (schema : String := "sys") : M Unit := fun s =>
  match _switch E sess s with
  | (s1, .error e) => (s1, .error e)
  | (s1, .ok ()) =>
    match get_columns E sess table schema s1 with
    | (s2, .error e) => (s2, .error e)
    | (s2, .ok existing_columns) =>
      if existing_columns = [] then
        (s2, .error (.valueError "not enough values to unpack (expected 2, got 0)"))
      else
        let existing_names := existing_columns.map Prod.fst
        if !(sameSet existing_names (data.map Prod.fst)) then
          (s2, .error (.programmingError
            (append_name_error (data.map Prod.fst) existing_names)))
        else
          match check_columns data existing_columns with
          | .error e => (s2, .error e)
          | .ok descriptors =>
            let conn := s2.g.connection
            let rc := E.append_rc conn schema table
            let s3 : St := { s2 with trace := s2.trace ++ [ECall.eAppend conn schema table descriptors] }
            if rc = 0 then (s3, .ok ())
            else (s3, .error (.operationalError (engine_error_message rc)))

end Internal

/-! ## Parameter binding (module-level `bind`) -/

/-- The UTF-8 bytes of a string (`str.encode()` with the default
encoding). -/
def utf8_bytes (s : String) : List UInt8 := s.toUTF8.toList

/-- Module-level `bind` (internal.py lines 63-64): every parameter
value, of whatever type, is rendered with `str(...)`, encoded as UTF-8,
and handed to `monetdbe_bind`; the status is checked. -/
def bind (E : Engine) (statement : Nat) (data : Val) (parameter_nr : Nat) : M Unit := fun s =>
  let payload := utf8_bytes (pyStr data)
  let rc := E.bind_rc statement (pyStr data) parameter_nr
  let s1 : St := { s with trace := s.trace ++ [ECall.eBind statement payload parameter_nr] }
  if rc = 0 then (s1, .ok ())
  else (s1, .error (.operationalError (engine_error_message rc)))

/-! ## Shared lemmas -/

/-- For a non-NaN sentinel, numpy element equality against the integer
sentinel coincides with structural equality. -/
theorem np_eq_vInt (v : Val) (k : Int) : np_eq v (Val.vInt k) = decide (v = Val.vInt k) := by
  cases v <;> rfl

/-- numpy element equality against the NaN pattern is false for every
element, the NaN pattern itself included. -/
theorem np_eq_vNaN (v : Val) : np_eq v Val.vNaN = false := by
  cases v <;> rfl

/-! ## Claim theorems -/

/-- C2 (amended): materializing a fixed-width numeric column of
`nrows` elements views the raw buffer directly as the `nrows` source
elements and emits no warning; the null mask depends on the type's
sentinel: for the integer types, whose sentinel is an in-band integer
value, the mask is true exactly at the positions whose stored element
equals the sentinel; for a type with no sentinel (`bool`) the mask is
the no-op mask `np.ma.nomask`; but for the float types, whose sentinel
is the NaN pattern, the element-wise comparison `np_col ==
monetdbe_null` is false everywhere — including at the positions whose
stored element is the NaN sentinel itself — so the mask is all-false
and NaN nulls are never masked. -/
theorem C2_fixed_width_materialization (rcol : ResultCol) (nrows : Nat) :
    (rcol.type = monetdbe_int8_t ∨ rcol.type = monetdbe_int16_t ∨
        rcol.type = monetdbe_int32_t ∨ rcol.type = monetdbe_int64_t →
      ∃ (cs : String) (dt : NPDtype) (k : Int),
        monet_numpy_map rcol.type = some (cs, dt, some (Val.vInt k)) ∧
        fetch_numpy_column nrows rcol =
          .ok (⟨List.ofFn (fun r : Fin nrows => rcol.raw r),
                some (List.ofFn (fun r : Fin nrows => decide (rcol.raw r = Val.vInt k)))⟩,
               [])) ∧
    (rcol.type = monetdbe_bool →
      fetch_numpy_column nrows rcol =
        .ok (⟨List.ofFn (fun r : Fin nrows => rcol.raw r), none⟩, [])) ∧
    (rcol.type = monetdbe_float ∨ rcol.type = monetdbe_double →
      monet_numpy_map rcol.type ≠ none ∧
      (monet_numpy_map rcol.type).map (fun e => e.2.2) = some (some Val.vNaN) ∧
      fetch_numpy_column nrows rcol =
        .ok (⟨List.ofFn (fun r : Fin nrows => rcol.raw r),
              some (List.ofFn (fun _ : Fin nrows => false))⟩, [])) := by
  refine ⟨?_, ?_, ?_⟩
  · intro h
    rcases h with h | h | h | h
    · refine ⟨"int8_t", NPDtype.np_int8, -(2 ^ 7), ?_, ?_⟩ <;>
        simp [fetch_numpy_column, monet_numpy_map, h, monetdbe_bool, monetdbe_int8_t,
          monetdbe_int16_t, monetdbe_int32_t, monetdbe_int64_t, monetdbe_float,
          monetdbe_double, monetdbe_str, monetdbe_date, monetdbe_time,
          monetdbe_timestamp, Val.truthy, np_eq_vInt, Function.comp] <;> rfl
    · refine ⟨"int16_t", NPDtype.np_int16, -(2 ^ 15), ?_, ?_⟩ <;>
        simp [fetch_numpy_column, monet_numpy_map, h, monetdbe_bool, monetdbe_int8_t,
          monetdbe_int16_t, monetdbe_int32_t, monetdbe_int64_t, monetdbe_float,
          monetdbe_double, monetdbe_str, monetdbe_date, monetdbe_time,
          monetdbe_timestamp, Val.truthy, np_eq_vInt, Function.comp] <;> rfl
    · refine ⟨"int32_t", NPDtype.np_int32, -(2 ^ 31), ?_, ?_⟩ <;>
        simp [fetch_numpy_column, monet_numpy_map, h, monetdbe_bool, monetdbe_int8_t,
          monetdbe_int16_t, monetdbe_int32_t, monetdbe_int64_t, monetdbe_float,
          monetdbe_double, monetdbe_str, monetdbe_date, monetdbe_time,
          monetdbe_timestamp, Val.truthy, np_eq_vInt, Function.comp] <;> rfl
    · refine ⟨"int64_t", NPDtype.np_int64, -(2 ^ 63), ?_, ?_⟩ <;>
        simp [fetch_numpy_column, monet_numpy_map, h, monetdbe_bool, monetdbe_int8_t,
          monetdbe_int16_t, monetdbe_int32_t, monetdbe_int64_t, monetdbe_float,
          monetdbe_double, monetdbe_str, monetdbe_date, monetdbe_time,
          monetdbe_timestamp, Val.truthy, np_eq_vInt, Function.comp] <;> rfl
  · intro h
    simp [fetch_numpy_column, monet_numpy_map, h, monetdbe_bool]
  · intro h
    rcases h with h | h <;>
      refine ⟨by simp [monet_numpy_map, h, monetdbe_bool, monetdbe_int8_t,
          monetdbe_int16_t, monetdbe_int32_t, monetdbe_int64_t, monetdbe_float,
          monetdbe_double, monetdbe_str, monetdbe_date, monetdbe_time,
          monetdbe_timestamp],
        by simp [monet_numpy_map, h, monetdbe_bool, monetdbe_int8_t,
          monetdbe_int16_t, monetdbe_int32_t, monetdbe_int64_t, monetdbe_float,
          monetdbe_double, monetdbe_str, monetdbe_date, monetdbe_time,
          monetdbe_timestamp],
        ?_⟩ <;>
      simp [fetch_numpy_column, monet_numpy_map, h, monetdbe_bool, monetdbe_int8_t,
        monetdbe_int16_t, monetdbe_int32_t, monetdbe_int64_t, monetdbe_float,
        monetdbe_double, monetdbe_str, monetdbe_date, monetdbe_time,
        monetdbe_timestamp, Val.truthy, np_eq_vNaN, Function.comp]

/-- A concrete int32 column: values 1, the int32 null sentinel, 2. -/
def intCol : ResultCol :=
  ⟨"a", monetdbe_int32_t,
    (fun i => if i = 1 then Val.vInt (-(2 ^ 31)) else Val.vInt (Int.ofNat i)),
    fun _ => Val.vNone⟩

/-- C2 witness: the int32 case at three concrete rows, with the type
map entry and the materialized array made explicit. -/
theorem C2_witness :
    monet_numpy_map intCol.type =
      some ("int32_t", NPDtype.np_int32, some (Val.vInt (-(2 ^ 31)))) ∧
    fetch_numpy_column 3 intCol =
      .ok (⟨List.ofFn (fun r : Fin 3 => intCol.raw r),
            some (List.ofFn (fun r : Fin 3 =>
              decide (intCol.raw r = Val.vInt (-(2 ^ 31)))))⟩, []) := by
  obtain ⟨cs, dt, k, h1, h2⟩ :=
    (C2_fixed_width_materialization intCol 3).1 (Or.inr (Or.inr (Or.inl rfl)))
  have h0 : monet_numpy_map intCol.type =
      some ("int32_t", NPDtype.np_int32, some (Val.vInt (-(2 ^ 31)))) := rfl
  rw [h0] at h1
  obtain ⟨hcs, hdt, hk⟩ := by simpa using h1.symm
  subst hcs
  subst hdt
  subst hk
  exact ⟨h0, h2⟩

/-- A concrete float64 column: value 1, the NaN null sentinel,
value 1. -/
def floatCol : ResultCol :=
  ⟨"f", monetdbe_double,
    (fun i => if i = 1 then Val.vNaN else Val.vInt 1),
    fun _ => Val.vNone⟩

/-- C2 counterexample: `double` is a supported fixed-width numeric
type whose modelled sentinel is the NaN pattern, and the stored
element at row 1 equals that sentinel; yet the computed mask is
all-false — the comparison `np_col == monetdbe_null` numpy performs is
false even where the stored element is NaN — refuting "a null mask
that is true exactly at the positions whose stored element equals s"
over every sentinel-carrying fixed-width numeric type. -/
theorem C2_counterexample :
    monet_numpy_map floatCol.type =
      some ("double", NPDtype.np_float64, some Val.vNaN) ∧
    floatCol.raw 1 = Val.vNaN ∧
    fetch_numpy_column 3 floatCol =
      .ok (⟨[Val.vInt 1, Val.vNaN, Val.vInt 1], some [false, false, false]⟩, []) :=
  ⟨rfl, rfl, rfl⟩

/-- C9: materializing a time-of-day column never raises: the type map
gives it the object dtype and no sentinel, so the per-row extracted
values are returned unconverted, the mask is the no-op mask, and the
non-fatal diagnostic is emitted. -/
theorem C9_time_column (rcol : ResultCol) (nrows : Nat) (h : rcol.type = monetdbe_time) :
    fetch_numpy_column nrows rcol =
      .ok (⟨List.ofFn (fun r : Fin nrows => rcol.extract r), none⟩, [time_warning]) := by
  simp [fetch_numpy_column, monet_numpy_map, h, monetdbe_bool, monetdbe_int8_t,
    monetdbe_int16_t, monetdbe_int32_t, monetdbe_int64_t, monetdbe_float,
    monetdbe_double, monetdbe_str, monetdbe_date, monetdbe_time, monetdbe_timestamp]

/-- A concrete TIME column of two rows. -/
def timeCol : ResultCol :=
  ⟨"t", monetdbe_time, (fun _ => Val.vNone), fun i => Val.vInt (Int.ofNat i)⟩

/-- C9 witness: a concrete TIME column materializes without error,
unconverted, with the diagnostic emitted. -/
theorem C9_witness :
    fetch_numpy_column 2 timeCol =
      .ok (⟨List.ofFn (fun r : Fin 2 => timeCol.extract r), none⟩, [time_warning]) :=
  C9_time_column timeCol 2 rfl

/-- C10: `bind` always hands the engine the UTF-8 encoding of the
`str(...)` rendering of the parameter value, whatever its type:
numbers are bound as their decimal text, strings as themselves, `None`
as the text "None". -/
theorem C10_bind_textual (E : Engine) (stmt : Nat) (data : Val) (n : Nat) (s : St) :
    ((bind E stmt data n s).1.trace = s.trace ++ [ECall.eBind stmt (utf8_bytes (pyStr data)) n]) ∧
    (∀ i : Int, pyStr (Val.vInt i) = toString i) ∧
    pyStr Val.vNone = "None" ∧
    (∀ t : String, pyStr (Val.vStr t) = t) := by
  refine ⟨?_, fun i => rfl, rfl, fun t => rfl⟩
  unfold bind
  by_cases hrc : E.bind_rc stmt (pyStr data) n = 0 <;> simp [hrc]

/-! ## Concrete engine fixtures for witnesses and counterexamples -/

/-- A well-behaved concrete engine: every call succeeds.  The table
`t` has one int32 column named `a`. -/
def E0 : Engine where
  resolve := id
  open_rc := fun _ _ => 0
  open_handle := fun _ _ => 1
  error_str := fun _ => "boom"
  close_rc := fun _ => 0
  query_rc := fun _ _ => 0
  query_result := fun _ _ => 11
  query_rows := fun _ _ => 2
  cleanup_result_rc := fun _ _ => 0
  prepare_rc := fun _ _ => 0
  prepare_stmt := fun _ _ => 21
  bind_rc := fun _ _ _ => 0
  set_autocommit_rc := fun _ _ => 0
  in_transaction_val := fun _ => 0
  append_rc := fun _ _ _ => 0
  get_columns_val := fun _ _ _ => [("a", monetdbe_int32_t)]
  get_columns_rc := fun _ _ _ => 0

/-- An in-memory session with object identity 1. -/
def sess0 : SessionCfg := ⟨1, none, 0, 0, 0, 0⟩

/-- A fresh state: no active context, no connection, empty trace. -/
def st0 : St := ⟨⟨none, false, none⟩, []⟩

/-- A state in which session 1 is active and holds connection 5. -/
def stA : St := ⟨⟨some 1, false, some 5⟩, []⟩

/-- C3 counterexample: with a non-null result pointer and a live
connection, a second `cleanup_result` call is NOT a no-op: it issues
the engine release again, so the native result is released twice —
refuting "the release of the underlying native result happens at most
once" and "invoking cleanup a second time has no observable effect". -/
theorem C3_counterexample :
    (Internal.cleanup_result E0 7 stA).2 = .ok () ∧
    (Internal.cleanup_result E0 7 (Internal.cleanup_result E0 7 stA).1).2 = .ok () ∧
    (Internal.cleanup_result E0 7 (Internal.cleanup_result E0 7 stA).1).1.trace =
      [ECall.eCleanupResult (some 5) 7, ECall.eCleanupResult (some 5) 7] :=
  ⟨rfl, rfl, rfl⟩

/-- C3 amended: `cleanup_result` on a null result pointer, or when the
session holds no connection, never raises and has no observable
effect; the guard does not detect a repeated call while both the
pointer and the connection are live, so at-most-once release holds
only when the pointer or the connection has been cleared in between. -/
theorem C3_cleanup_noop (E : Engine) (result : Nat) (s : St)
    (h : result = 0 ∨ s.g.connection = none) :
    Internal.cleanup_result E result s = (s, .ok ()) := by
  unfold Internal.cleanup_result
  rcases h with h | h <;> simp [h]

/-- C3 witness: cleanup of a null result pointer is a no-op. -/
theorem C3_witness : Internal.cleanup_result E0 0 stA = (stA, .ok ()) :=
  C3_cleanup_noop E0 0 stA (Or.inl rfl)

/-- C4: when `monetdbe_open` returns a non-zero code, `open` raises
`OperationalError`: for code -2 ("error in DB") the message carries the
engine's own error string and the partially created connection is
closed (an `eClose` on the fresh handle is in the trace) before the
error propagates; for -1 ("allocation failed") and for unknown codes
the message is the fixed generic text — independent of the engine's
error string — and no close is issued. -/
theorem C4_open_error_mapping (E : Engine) (sess : SessionCfg) (s : St) :
    (E.open_rc (session_url E sess) (session_opts sess) = -2 →
      Internal.open_db E sess s =
        ({ s with trace := s.trace ++
            [ECall.eOpen (session_url E sess) (session_opts sess),
             ECall.eClose (E.open_handle (session_url E sess) (session_opts sess))] },
         .error (.operationalError
           (open_error_message
             (E.error_str (E.open_handle (session_url E sess) (session_opts sess)))
             (-2))))) ∧
    (E.open_rc (session_url E sess) (session_opts sess) = -1 →
      Internal.open_db E sess s =
        ({ s with trace := s.trace ++
            [ECall.eOpen (session_url E sess) (session_opts sess)] },
         .error (.operationalError (open_error_message "Allocation failed" (-1))))) ∧
    (∀ rc : Int, E.open_rc (session_url E sess) (session_opts sess) = rc →
      rc ≠ 0 → rc ≠ -1 → rc ≠ -2 →
      Internal.open_db E sess s =
        ({ s with trace := s.trace ++
            [ECall.eOpen (session_url E sess) (session_opts sess)] },
         .error (.operationalError (open_error_message "unknown error" rc)))) := by
  refine ⟨fun h => ?_, fun h => ?_, fun rc h h0 h1 h2 => ?_⟩ <;>
    unfold Internal.open_db
  · simp [h, open_error_message]
  · simp [h, open_error_message]
  · simp [h, h0, h1, h2, open_error_message]

/-- An engine whose `monetdbe_open` reports an in-engine error. -/
def Eopen2 : Engine := { E0 with open_rc := fun _ _ => -2 }

/-- C4 witness: the "error in DB" path at a concrete engine: the error
carries the engine error string and the fresh handle is closed. -/
theorem C4_witness :
    Internal.open_db Eopen2 sess0 st0 =
      ({ st0 with trace := st0.trace ++
          [ECall.eOpen (session_url Eopen2 sess0) (session_opts sess0),
           ECall.eClose (Eopen2.open_handle (session_url Eopen2 sess0) (session_opts sess0))] },
       .error (.operationalError
         (open_error_message
           (Eopen2.error_str (Eopen2.open_handle (session_url Eopen2 sess0) (session_opts sess0)))
           (-2)))) :=
  (C4_open_error_mapping Eopen2 sess0 st0).1 rfl

/-- An engine whose `monetdbe_close` reports failure. -/
def EcloseFail : Engine := { E0 with close_rc := fun _ => 1 }

/-- A session with identity 42 and no storage directory. -/
def sess42 : SessionCfg := ⟨42, none, 0, 0, 0, 0⟩

/-- A state where some other session (9) is active and connection 3 is
held. -/
def st9 : St := ⟨⟨some 9, false, some 3⟩, []⟩

/-- C7 counterexample: when the engine reports failure to close, the
`OperationalError` propagates before the rest of `close` runs, so —
contrary to the claim — the active-session marker is NOT cleared and
the process-wide in-memory flag is NOT marked occupied, even though the
session has no storage path. -/
theorem C7_counterexample :
    (Internal.close EcloseFail sess42 st9).2 =
      .error (.operationalError "Failed to close database") ∧
    (Internal.close EcloseFail sess42 st9).1.g.active_context = some 9 ∧
    (Internal.close EcloseFail sess42 st9).1.g.in_memory_active = false ∧
    sess42.dbdir = none :=
  ⟨rfl, rfl, rfl, rfl⟩

/-- C7 amended: `close` is idempotent and releases the handle if one is
held, raising `OperationalError` if the engine reports failure to
close; but the later steps — clearing the active-session marker and,
for a session without a storage path, marking the process-wide
in-memory flag — run only when no engine close failure occurred: on
failure the exception propagates with the connection, marker and flag
all untouched. -/
theorem C7_close_behavior (E : Engine) (sess : SessionCfg) (s : St) :
    (s.g.connection = none →
      Internal.close E sess s =
        (⟨⟨none, (if sess.dbdir = none then true else s.g.in_memory_active), none⟩,
          s.trace⟩, .ok ())) ∧
    (∀ h : Nat, s.g.connection = some h → E.close_rc h = 0 →
      Internal.close E sess s =
        (⟨⟨none, (if sess.dbdir = none then true else s.g.in_memory_active), none⟩,
          s.trace ++ [ECall.eClose h]⟩, .ok ())) ∧
    (∀ h : Nat, s.g.connection = some h → E.close_rc h ≠ 0 →
      Internal.close E sess s =
        (⟨s.g, s.trace ++ [ECall.eClose h]⟩,
         .error (.operationalError "Failed to close database"))) ∧
    (∀ s1 : St, Internal.close E sess s = (s1, .ok ()) →
      Internal.close E sess s1 = (s1, .ok ())) := by
  obtain ⟨⟨ac, ima, cn⟩, tr⟩ := s
  refine ⟨fun hc => ?_, fun h hc hrc => ?_, fun h hc hrc => ?_, fun s1 h1 => ?_⟩
  · subst hc
    unfold Internal.close
    cases ac <;> by_cases hd : sess.dbdir = none <;> simp [hd]
  · subst hc
    unfold Internal.close
    cases ac <;> by_cases hd : sess.dbdir = none <;> simp [hd, hrc]
  · subst hc
    unfold Internal.close
    simp [hrc]
  · cases cn with
    | none =>
      unfold Internal.close at h1 ⊢
      cases ac <;> by_cases hd : sess.dbdir = none <;>
        simp [hd] at h1 ⊢ <;> simp [← h1]
    | some h =>
      unfold Internal.close at h1 ⊢
      by_cases hrc : E.close_rc h ≠ 0
      · simp [hrc] at h1
      · simp at hrc
        cases ac <;> by_cases hd : sess.dbdir = none <;>
          simp [hd, hrc] at h1 ⊢ <;> simp [← h1]

/-- C7 witness: successful close of a held connection clears the
handle and the marker and marks the in-memory flag. -/
theorem C7_witness :
    Internal.close E0 sess42 st9 =
      (⟨⟨none, (if sess42.dbdir = none then true else st9.g.in_memory_active), none⟩,
        st9.trace ++ [ECall.eClose 3]⟩, .ok ()) :=
  (C7_close_behavior E0 sess42 st9).2.1 3 rfl rfl

/-- An engine that reports failure from `monetdbe_get_columns` while
still producing column data. -/
def EgcFail : Engine := { E0 with get_columns_rc := fun _ _ _ => -1 }

/-- C8 counterexample: the code never checks the status returned by
`monetdbe_get_columns` (there is no `check_error` around the call at
internal.py line 283), so even when the engine reports failure,
`get_columns` yields the column pairs and raises nothing — refuting
"whenever the underlying engine call reports failure, get_columns
raises OperationalError". -/
theorem C8_counterexample :
    EgcFail.get_columns_rc (some 5) "sys" "t" ≠ 0 ∧
    Internal.get_columns EgcFail sess0 "t" "sys" stA =
      (⟨stA.g, [ECall.eGetColumns (some 5) "sys" "t"]⟩,
       .ok [("a", monetdbe_int32_t)]) :=
  ⟨by decide, rfl⟩

/-- C8 amended: `get_columns` produces the finite sequence of
(name, type tag) pairs the engine hands back; the engine's status code
is ignored, so an engine-reported failure does not raise
`OperationalError`. -/
theorem C8_get_columns_behavior (E : Engine) (sess : SessionCfg)
    (table schema : String) (s s1 : St)
    (hsw : Internal._switch E sess s = (s1, .ok ())) :
    Internal.get_columns E sess table schema s =
      ({ s1 with trace := s1.trace ++ [ECall.eGetColumns s1.g.connection schema table] },
       .ok (E.get_columns_val s1.g.connection schema table)) := by
  unfold Internal.get_columns
  rw [hsw]

/-- C8 witness: a concrete `get_columns` call from an active state. -/
theorem C8_witness :
    Internal.get_columns E0 sess0 "t" "sys" stA =
      ({ stA with trace := stA.trace ++ [ECall.eGetColumns stA.g.connection "sys" "t"] },
       .ok (E0.get_columns_val stA.g.connection "sys" "t")) :=
  C8_get_columns_behavior E0 sess0 "t" "sys" stA stA rfl

/-! ## Shape lemmas for `_switch`, `close`, `open_db`, `get_columns` -/

/-- A successful `open_db` returns the fresh engine handle, implies the
engine reported success, and only appends the `eOpen` call to the
trace. -/
theorem open_db_ok (E : Engine) (sess : SessionCfg) (s s' : St) (v : Nat)
    (h : Internal.open_db E sess s = (s', .ok v)) :
    v = E.open_handle (session_url E sess) (session_opts sess) ∧
    E.open_rc (session_url E sess) (session_opts sess) = 0 ∧
    s' = { s with trace := s.trace ++ [ECall.eOpen (session_url E sess) (session_opts sess)] } := by
  unfold Internal.open_db at h
  by_cases h0 : E.open_rc (session_url E sess) (session_opts sess) = 0
  · simp [h0] at h
    exact ⟨h.2.symm, h0, h.1.symm⟩
  · by_cases h2 : E.open_rc (session_url E sess) (session_opts sess) = -2 <;>
      simp [h0, h2] at h

/-- A successful `close` starting from a held connection appended
exactly the `eClose` call for that handle. -/
theorem close_ok_trace (E : Engine) (sess : SessionCfg) (s s' : St)
    (hc : Internal.close E sess s = (s', .ok ())) (h : Nat)
    (hconn : s.g.connection = some h) :
    s'.trace = s.trace ++ [ECall.eClose h] := by
  obtain ⟨⟨ac, ima, cn⟩, tr⟩ := s
  simp only at hconn
  subst hconn
  unfold Internal.close at hc
  by_cases hrc : E.close_rc h ≠ 0
  · simp [hrc] at hc
  · simp only [ne_eq, not_not] at hrc
    cases ac <;> by_cases hd : sess.dbdir = none <;>
      simp [hd, hrc] at hc <;> subst hc <;> rfl

/-- `close` only ever appends non-append engine calls (at most one
`eClose`) to the trace. -/
theorem close_no_append (E : Engine) (sess : SessionCfg) (s : St) :
    ∃ t, (Internal.close E sess s).1.trace = s.trace ++ t ∧
      ∀ c ∈ t, c.isAppend = false := by
  obtain ⟨⟨ac, ima, cn⟩, tr⟩ := s
  unfold Internal.close
  cases cn with
  | none =>
    refine ⟨[], ?_, by simp⟩
    cases ac <;> by_cases hd : sess.dbdir = none <;> simp [hd]
  | some h =>
    refine ⟨[ECall.eClose h], ?_, by simp [ECall.isAppend]⟩
    by_cases hrc : E.close_rc h ≠ 0
    · simp [hrc]
    · simp only [ne_eq, not_not] at hrc
      cases ac <;> by_cases hd : sess.dbdir = none <;> simp [hd, hrc]

/-- `open_db` only ever appends non-append engine calls (`eOpen`, and
on the in-engine-error path an `eClose`) to the trace. -/
theorem open_db_no_append (E : Engine) (sess : SessionCfg) (s : St) :
    ∃ t, (Internal.open_db E sess s).1.trace = s.trace ++ t ∧
      ∀ c ∈ t, c.isAppend = false := by
  unfold Internal.open_db
  by_cases h0 : E.open_rc (session_url E sess) (session_opts sess) = 0
  · exact ⟨[ECall.eOpen (session_url E sess) (session_opts sess)],
      by simp [h0], by simp [ECall.isAppend]⟩
  · by_cases h2 : E.open_rc (session_url E sess) (session_opts sess) = -2
    · exact ⟨[ECall.eOpen (session_url E sess) (session_opts sess),
        ECall.eClose (E.open_handle (session_url E sess) (session_opts sess))],
        by simp [h0, h2], by simp [ECall.isAppend]⟩
    · exact ⟨[ECall.eOpen (session_url E sess) (session_opts sess)],
        by simp [h0, h2], by simp [ECall.isAppend]⟩

/-- `_switch` only ever appends non-append engine calls to the
trace. -/
theorem switch_no_append (E : Engine) (sess : SessionCfg) (s : St) :
    ∃ t, (Internal._switch E sess s).1.trace = s.trace ++ t ∧
      ∀ c ∈ t, c.isAppend = false := by
  unfold Internal._switch
  by_cases hact : s.g.active_context = some sess.sid
  · exact ⟨[], by simp [hact], by simp⟩
  · rw [if_neg hact]
    obtain ⟨t1, ht1, hn1⟩ := close_no_append E sess s
    rcases hcl : Internal.close E sess s with ⟨s1, r1⟩
    rw [hcl] at ht1
    simp only at ht1
    cases r1 with
    | error e => exact ⟨t1, by simp [hcl, ht1], hn1⟩
    | ok u =>
      cases u
      obtain ⟨t2, ht2, hn2⟩ := open_db_no_append E sess s1
      rcases hop : Internal.open_db E sess s1 with ⟨s2, r2⟩
      rw [hop] at ht2
      simp only at ht2
      refine ⟨t1 ++ t2, ?_, ?_⟩
      · cases r2 with
        | error e => simp [hcl, hop, ht2, ht1, List.append_assoc]
        | ok conn =>
          by_cases hd : sess.dbdir = none <;>
            simp [hcl, hop, hd, ht2, ht1, List.append_assoc]
      · intro c hc
        rcases List.mem_append.mp hc with h | h
        · exact hn1 c h
        · exact hn2 c h

/-- `get_columns` only ever appends non-append engine calls to the
trace. -/
theorem get_columns_no_append (E : Engine) (sess : SessionCfg)
    (table schema : String) (s : St) :
    ∃ t, (Internal.get_columns E sess table schema s).1.trace = s.trace ++ t ∧
      ∀ c ∈ t, c.isAppend = false := by
  unfold Internal.get_columns
  obtain ⟨t1, ht1, hn1⟩ := switch_no_append E sess s
  rcases hsw : Internal._switch E sess s with ⟨s1, r1⟩
  rw [hsw] at ht1
  simp only at ht1
  cases r1 with
  | error e => exact ⟨t1, by simp [hsw, ht1], hn1⟩
  | ok u =>
    cases u
    refine ⟨t1 ++ [ECall.eGetColumns s1.g.connection schema table], ?_, ?_⟩
    · simp [hsw, ht1, List.append_assoc]
    · intro c hc
      rcases List.mem_append.mp hc with h | h
      · exact hn1 c h
      · simp at h
        simp [h, ECall.isAppend]

/-- A trace extension by non-append calls adds no engine bulk-append
call. -/
theorem no_new_append_of_extension {s s' : St}
    (hx : ∃ t, s'.trace = s.trace ++ t ∧ ∀ c ∈ t, c.isAppend = false) :
    ∀ c ∈ s'.trace, c.isAppend = true → c ∈ s.trace := by
  obtain ⟨t, ht, hn⟩ := hx
  intro c hc ha
  rw [ht] at hc
  rcases List.mem_append.mp hc with h | h
  · exact h
  · rw [hn c h] at ha
    exact absurd ha (by simp)

/-- A successful `_switch` leaves this session as the process-wide
active context. -/
theorem switch_ok_active (E : Engine) (sess : SessionCfg) (s s1 : St)
    (h : Internal._switch E sess s = (s1, .ok ())) :
    s1.g.active_context = some sess.sid := by
  unfold Internal._switch at h
  by_cases hact : s.g.active_context = some sess.sid
  · rw [if_pos hact] at h
    obtain ⟨h1, -⟩ := Prod.mk.injEq .. ▸ h
    rw [← h1]
    exact hact
  · rw [if_neg hact] at h
    rcases hcl : Internal.close E sess s with ⟨s2, r2⟩
    rw [hcl] at h
    cases r2 with
    | error e => simp at h
    | ok u =>
      cases u
      dsimp only at h
      rcases hop : Internal.open_db E sess s2 with ⟨s3, r3⟩
      rw [hop] at h
      cases r3 with
      | error e => simp at h
      | ok conn =>
        by_cases hd : sess.dbdir = none <;> simp [hd] at h <;> subst h <;> rfl

/-- When this session is already active, `get_columns` does not
re-enter the close/open path: it only records the engine call and
yields the engine's pairs. -/
theorem get_columns_active (E : Engine) (sess : SessionCfg)
    (table schema : String) (s : St)
    (hact : s.g.active_context = some sess.sid) :
    Internal.get_columns E sess table schema s =
      ({ s with trace := s.trace ++ [ECall.eGetColumns s.g.connection schema table] },
       .ok (E.get_columns_val s.g.connection schema table)) := by
  unfold Internal.get_columns Internal._switch
  rw [if_pos hact]

/-- Columns that pass the per-column checks are skipped by the append
loop until the first failing column is reached, in declared order. -/
theorem check_columns_append_error (data : List (String × NPArray))
    (pre l : List (String × Int)) (e : Err)
    (hpre : ∀ c ∈ pre, col_ok data c = true)
    (hl : check_columns data l = .error e) :
    check_columns data (pre ++ l) = .error e := by
  induction pre with
  | nil => simpa using hl
  | cons hd tl ih =>
    have hhd : col_ok data hd = true := hpre hd (by simp)
    have htl : ∀ c ∈ tl, col_ok data c = true :=
      fun c hc => hpre c (List.mem_cons_of_mem _ hc)
    obtain ⟨n, ty⟩ := hd
    unfold col_ok at hhd
    rcases hlk : List.lookup n data with _ | arr
    · rw [hlk] at hhd
      simp at hhd
    · rw [hlk] at hhd
      dsimp only at hhd
      rcases hmp : numpy_monetdb_map arr.dtype with _ | ⟨ws, w⟩
      · rw [hmp] at hhd
        simp at hhd
      · rw [hmp] at hhd
        simp only [beq_iff_eq] at hhd
        rw [List.cons_append]
        unfold check_columns
        rw [hlk]
        dsimp only
        rw [hmp]
        simp only [hhd, ne_eq, not_true_eq_false, if_false, ite_false]
        rw [ih htl]

/-- C5: when the provided column-name set differs from the target
table's existing column-name set (and the table has at least one
column), `append` raises `ProgrammingError` whose message lists both
name sets, and no engine bulk-append call is ever issued, so the
table's row count is unchanged. -/
theorem C5_append_name_mismatch (E : Engine) (sess : SessionCfg)
    (table schema : String) (data : List (String × NPArray)) (s s1 s2 : St)
    (cols : List (String × Int))
    (hsw : Internal._switch E sess s = (s1, .ok ()))
    (hget : Internal.get_columns E sess table schema s1 = (s2, .ok cols))
    (hne : cols ≠ [])
    (hmm : sameSet (cols.map Prod.fst) (data.map Prod.fst) = false) :
    Internal.append E sess table data schema s =
      (s2, .error (.programmingError
        (append_name_error (data.map Prod.fst) (cols.map Prod.fst)))) ∧
    ∀ c ∈ s2.trace, c.isAppend = true → c ∈ s.trace := by
  constructor
  · unfold Internal.append
    rw [hsw]
    dsimp only
    rw [hget]
    simp [hne, hmm]
  · apply no_new_append_of_extension
    obtain ⟨t1, ht1, hn1⟩ := switch_no_append E sess s
    obtain ⟨t2, ht2, hn2⟩ := get_columns_no_append E sess table schema s1
    rw [hsw] at ht1
    rw [hget] at ht2
    simp only at ht1 ht2
    refine ⟨t1 ++ t2, by rw [ht2, ht1, List.append_assoc], ?_⟩
    intro c hc
    rcases List.mem_append.mp hc with h | h
    · exact hn1 c h
    · exact hn2 c h

/-- Data for an append that names a column `b` the table lacks. -/
def dataB : List (String × NPArray) := [("b", ⟨NPDtype.np_int32, 3⟩)]

/-- C5 witness: appending a column named `b` to the one-column table
`t` (whose column is `a`) fails with the name-mismatch
`ProgrammingError` before any engine append call. -/
theorem C5_witness :
    Internal.append E0 sess0 "t" dataB "sys" stA =
      (⟨stA.g, [ECall.eGetColumns (some 5) "sys" "t"]⟩,
       .error (.programmingError
         (append_name_error (dataB.map Prod.fst)
           (([("a", monetdbe_int32_t)] : List (String × Int)).map Prod.fst)))) :=
  (C5_append_name_mismatch E0 sess0 "t" "sys" dataB stA stA
      ⟨stA.g, [ECall.eGetColumns (some 5) "sys" "t"]⟩ [("a", monetdbe_int32_t)]
      rfl rfl (by decide) (by decide)).1

/-- C6: the append loop checks columns in the engine's declared order;
at the first column whose provided array dtype maps to an engine type
different from the declared one, `append` raises `ProgrammingError`
naming both the provided and the existing type strings, and no engine
bulk-append call is ever issued. -/
theorem C6_append_type_mismatch (E : Engine) (sess : SessionCfg)
    (table schema : String) (data : List (String × NPArray)) (s s1 s2 : St)
    (pre rest : List (String × Int)) (cname : String) (ety : Int)
    (arr : NPArray) (wts : String) (wt : Int) (ets : String)
    (dt : NPDtype) (sn : Option Val)
    (hsw : Internal._switch E sess s = (s1, .ok ()))
    (hget : Internal.get_columns E sess table schema s1 =
      (s2, .ok (pre ++ (cname, ety) :: rest)))
    (hnames : sameSet ((pre ++ (cname, ety) :: rest).map Prod.fst)
      (data.map Prod.fst) = true)
    (hpre : ∀ c ∈ pre, col_ok data c = true)
    (hlook : List.lookup cname data = some arr)
    (hmap : numpy_monetdb_map arr.dtype = some (wts, wt))
    (hwne : wt ≠ ety)
    (hety : monet_numpy_map ety = some (ets, dt, sn)) :
    Internal.append E sess table data schema s =
      (s2, .error (.programmingError (append_type_error wts cname ets))) ∧
    ∀ c ∈ s2.trace, c.isAppend = true → c ∈ s.trace := by
  have hcc : check_columns data ((cname, ety) :: rest) =
      .error (.programmingError (append_type_error wts cname ets)) := by
    unfold check_columns
    rw [hlook]
    dsimp only
    rw [hmap]
    simp [hwne, hety]
  have hfull := check_columns_append_error data pre ((cname, ety) :: rest) _ hpre hcc
  constructor
  · unfold Internal.append
    rw [hsw]
    dsimp only
    rw [hget]
    have hnil : pre ++ (cname, ety) :: rest ≠ [] := by simp
    have hnames2 := hnames
    simp only [List.map_append, List.map_cons] at hnames2
    simp [hnil, hnames2, hfull]
  · apply no_new_append_of_extension
    obtain ⟨t1, ht1, hn1⟩ := switch_no_append E sess s
    obtain ⟨t2, ht2, hn2⟩ := get_columns_no_append E sess table schema s1
    rw [hsw] at ht1
    rw [hget] at ht2
    simp only at ht1 ht2
    refine ⟨t1 ++ t2, by rw [ht2, ht1, List.append_assoc], ?_⟩
    intro c hc
    rcases List.mem_append.mp hc with h | h
    · exact hn1 c h
    · exact hn2 c h

/-- Data whose only column `a` has dtype int64, while the table
declares int32. -/
def dataA64 : List (String × NPArray) := [("a", ⟨NPDtype.np_int64, 2⟩)]

/-- C6 witness: appending an int64 array to the int32 column `a`
fails with the type-mismatch `ProgrammingError` naming both types,
before any engine append call. -/
theorem C6_witness :
    Internal.append E0 sess0 "t" dataA64 "sys" stA =
      (⟨stA.g, [ECall.eGetColumns (some 5) "sys" "t"]⟩,
       .error (.programmingError (append_type_error "int64_t" "a" "int32_t"))) :=
  (C6_append_type_mismatch E0 sess0 "t" "sys" dataA64 stA stA
      ⟨stA.g, [ECall.eGetColumns (some 5) "sys" "t"]⟩
      [] [] "a" monetdbe_int32_t ⟨NPDtype.np_int64, 2⟩ "int64_t" monetdbe_int64_t
      "int32_t" NPDtype.np_int32 (some (Val.vInt (-(2 ^ 31))))
      rfl rfl (by decide) (by simp) rfl rfl (by decide) rfl).1

/-- A successful `_switch` from a non-active state stores the freshly
opened handle as the single connection, and the trace records the
close of any handle that was held before. -/
theorem switch_ok_shape (E : Engine) (sess : SessionCfg) (s s1 : St)
    (hact : s.g.active_context ≠ some sess.sid)
    (hsw : Internal._switch E sess s = (s1, .ok ())) :
    s1.g.connection = some (E.open_handle (session_url E sess) (session_opts sess)) ∧
    ∀ h : Nat, s.g.connection = some h → ECall.eClose h ∈ s1.trace := by
  unfold Internal._switch at hsw
  rw [if_neg hact] at hsw
  rcases hcl : Internal.close E sess s with ⟨s2, r2⟩
  rw [hcl] at hsw
  cases r2 with
  | error e => simp at hsw
  | ok u =>
    cases u
    dsimp only at hsw
    rcases hop : Internal.open_db E sess s2 with ⟨s3, r3⟩
    rw [hop] at hsw
    cases r3 with
    | error e => simp at hsw
    | ok conn =>
      obtain ⟨hv, hrc0, hs3⟩ := open_db_ok E sess s2 s3 conn hop
      subst hv
      constructor
      · by_cases hd : sess.dbdir = none <;> simp [hd] at hsw <;> subst hsw <;> rfl
      · intro h hconn
        have htr2 := close_ok_trace E sess s s2 hcl h hconn
        have hs1tr : s1.trace = s3.trace := by
          by_cases hd : sess.dbdir = none <;> simp [hd] at hsw <;> subst hsw <;> rfl
        rw [hs1tr, hs3]
        simp [htr2]

/-- C1: the single-active-session discipline.  (1) the class-level
state marks at most one session as active; (2) `_switch` is a no-op
when this session is already the active context; (3) otherwise a
successful `_switch` makes this session the active holder of the
freshly opened handle, having closed any handle that was held; (4)
each mutating operation (`query`, `prepare`, `append`,
`set_autocommit`, `in_transaction`, `get_columns`) runs `_switch`
first: if `_switch` fails the operation fails identically, with no
operation-specific engine call; (5) after any successful mutating
operation this session is the process-wide active one. -/
theorem C1_single_active_session (E : Engine) (sess : SessionCfg) (s : St) :
    (∀ (g : GState) (a b : Nat),
      g.active_context = some a → g.active_context = some b → a = b) ∧
    (s.g.active_context = some sess.sid → Internal._switch E sess s = (s, .ok ())) ∧
    (∀ s1 : St, s.g.active_context ≠ some sess.sid →
      Internal._switch E sess s = (s1, .ok ()) →
      s1.g.active_context = some sess.sid ∧
      s1.g.connection = some (E.open_handle (session_url E sess) (session_opts sess)) ∧
      ∀ h : Nat, s.g.connection = some h → ECall.eClose h ∈ s1.trace) ∧
    (∀ (s1 : St) (e : Err), Internal._switch E sess s = (s1, .error e) →
      (∀ q mk, Internal.query E sess q mk s = (s1, .error e)) ∧
      (∀ q, Internal.prepare E sess q s = (s1, .error e)) ∧
      (∀ t d sch, Internal.append E sess t d sch s = (s1, .error e)) ∧
      (∀ v, Internal.set_autocommit E sess v s = (s1, .error e)) ∧
      (Internal.in_transaction E sess s = (s1, .error e)) ∧
      (∀ t sch, Internal.get_columns E sess t sch s = (s1, .error e))) ∧
    ((∀ q mk s' v, Internal.query E sess q mk s = (s', .ok v) →
        s'.g.active_context = some sess.sid) ∧
     (∀ q s' v, Internal.prepare E sess q s = (s', .ok v) →
        s'.g.active_context = some sess.sid) ∧
     (∀ t d sch s', Internal.append E sess t d sch s = (s', .ok ()) →
        s'.g.active_context = some sess.sid) ∧
     (∀ v s', Internal.set_autocommit E sess v s = (s', .ok ()) →
        s'.g.active_context = some sess.sid) ∧
     (∀ s' b, Internal.in_transaction E sess s = (s', .ok b) →
        s'.g.active_context = some sess.sid) ∧
     (∀ t sch s' l, Internal.get_columns E sess t sch s = (s', .ok l) →
        s'.g.active_context = some sess.sid)) := by
  refine ⟨?_, ?_, ?_, ?_, ?_, ?_, ?_, ?_, ?_, ?_⟩
  · intro g a b ha hb
    rw [ha] at hb
    exact Option.some.injEq .. ▸ hb
  · intro hact
    unfold Internal._switch
    rw [if_pos hact]
  · intro s1 hact hsw
    exact ⟨switch_ok_active E sess s s1 hsw, switch_ok_shape E sess s s1 hact hsw⟩
  · intro s1 e hsw
    refine ⟨fun q mk => ?_, fun q => ?_, fun t d sch => ?_, fun v => ?_, ?_, fun t sch => ?_⟩
    · unfold Internal.query
      rw [hsw]
    · unfold Internal.prepare
      rw [hsw]
    · unfold Internal.append
      rw [hsw]
    · unfold Internal.set_autocommit
      rw [hsw]
    · unfold Internal.in_transaction
      rw [hsw]
    · unfold Internal.get_columns
      rw [hsw]
  · intro q mk s' v h
    unfold Internal.query at h
    rcases hsw : Internal._switch E sess s with ⟨s1, r1⟩
    rw [hsw] at h
    cases r1 with
    | error e => simp at h
    | ok u =>
      cases u
      dsimp only at h
      have hact1 := switch_ok_active E sess s s1 hsw
      by_cases hrc : E.query_rc s1.g.connection q = 0
      · rw [if_pos hrc] at h
        have h1 := congrArg (fun p => p.1.g.active_context) h
        dsimp at h1
        rw [← h1]
        exact hact1
      · rw [if_neg hrc] at h
        simp at h
  · intro q s' v h
    unfold Internal.prepare at h
    rcases hsw : Internal._switch E sess s with ⟨s1, r1⟩
    rw [hsw] at h
    cases r1 with
    | error e => simp at h
    | ok u =>
      cases u
      dsimp only at h
      have hact1 := switch_ok_active E sess s s1 hsw
      by_cases hrc : E.prepare_rc s1.g.connection q = 0
      · rw [if_pos hrc] at h
        have h1 := congrArg (fun p => p.1.g.active_context) h
        dsimp at h1
        rw [← h1]
        exact hact1
      · rw [if_neg hrc] at h
        simp at h
  · intro t d sch s' h
    unfold Internal.append at h
    rcases hsw : Internal._switch E sess s with ⟨s1, r1⟩
    rw [hsw] at h
    cases r1 with
    | error e => simp at h
    | ok u =>
      cases u
      dsimp only at h
      have hact1 := switch_ok_active E sess s s1 hsw
      rw [get_columns_active E sess t sch s1 hact1] at h
      dsimp only at h
      by_cases hnil : E.get_columns_val s1.g.connection sch t = []
      · rw [if_pos hnil] at h
        simp at h
      · rw [if_neg hnil] at h
        by_cases hss : (!sameSet
            (List.map Prod.fst (E.get_columns_val s1.g.connection sch t))
            (List.map Prod.fst d)) = true
        · rw [if_pos hss] at h
          simp at h
        · rw [if_neg hss] at h
          cases hchk : check_columns d (E.get_columns_val s1.g.connection sch t) with
          | error e =>
            rw [hchk] at h
            simp at h
          | ok ds =>
            rw [hchk] at h
            dsimp only at h
            by_cases hrc : E.append_rc s1.g.connection sch t = 0
            · rw [if_pos hrc] at h
              have h1 := congrArg (fun p => p.1.g.active_context) h
              dsimp at h1
              rw [← h1]
              exact hact1
            · rw [if_neg hrc] at h
              simp at h
  · intro v s' h
    unfold Internal.set_autocommit at h
    rcases hsw : Internal._switch E sess s with ⟨s1, r1⟩
    rw [hsw] at h
    cases r1 with
    | error e => simp at h
    | ok u =>
      cases u
      dsimp only at h
      have hact1 := switch_ok_active E sess s s1 hsw
      by_cases hrc : E.set_autocommit_rc s1.g.connection (if v then 1 else 0) = 0
      · rw [if_pos hrc] at h
        have h1 := congrArg (fun p => p.1.g.active_context) h
        dsimp at h1
        rw [← h1]
        exact hact1
      · rw [if_neg hrc] at h
        simp at h
  · intro s' b h
    unfold Internal.in_transaction at h
    rcases hsw : Internal._switch E sess s with ⟨s1, r1⟩
    rw [hsw] at h
    cases r1 with
    | error e => simp at h
    | ok u =>
      cases u
      dsimp only at h
      have hact1 := switch_ok_active E sess s s1 hsw
      have h1 := congrArg (fun p => p.1.g.active_context) h
      dsimp at h1
      rw [← h1]
      exact hact1
  · intro t sch s' l h
    unfold Internal.get_columns at h
    rcases hsw : Internal._switch E sess s with ⟨s1, r1⟩
    rw [hsw] at h
    cases r1 with
    | error e => simp at h
    | ok u =>
      cases u
      dsimp only at h
      have hact1 := switch_ok_active E sess s s1 hsw
      have h1 := congrArg (fun p => p.1.g.active_context) h
      dsimp at h1
      rw [← h1]
      exact hact1

/-- C1 witness: when session 1 is already the active context,
`_switch` is a no-op. -/
theorem C1_witness : Internal._switch E0 sess0 stA = (stA, .ok ()) :=
  (C1_single_active_session E0 sess0 stA).2.1 rfl

end MonetDBe
